import Mathlib

/-!
Verification of the AI Job Assistant (`app.py`) core: prompt building,
heuristic resume scoring, LLM call parameters, analyze-mode JSON response
handling, and session state (saved versions, chat history).  All
definitions are shallow embeddings translated from `app.py`; Python
runtime behaviours the handlers rely on (dict/str truthiness, `dict.get`,
iteration, `str.join`, `json.loads`) are modelled explicitly.
-/

/-- Substring test on character lists: Python's `in` operator for strings. -/
def listContainsSub (s pat : List Char) : Bool :=
  (List.range (s.length + 1)).any (fun i => pat.isPrefixOf (s.drop i))

/-- `strContains s pat` is Python `pat in s`. -/
def strContains (s pat : String) : Bool :=
  listContainsSub s.data pat.data

/-- The character data of `text.lower()` (Python ASCII-relevant lowering). -/
def lowerData (text : String) : List Char :=
  text.data.map Char.toLower

/-- Python `word in text.lower()`, the case-insensitive containment used by
the scorer. -/
def caseContains (text word : String) : Bool :=
  listContainsSub (lowerData text) word.data

/-- The score dictionary produced by `resume_score` in `app.py`. -/
structure ScoreCard where
  Contact : Nat
  Skills : Nat
  Experience : Nat
  Total : Nat
deriving DecidableEq, Repr

/-- `resume_score` from `app.py` (lines 50-57): keyword-presence scores and
their sum. -/
def resume_score (text : String) : ScoreCard :=
  let contact := if ["email", "phone", "contact"].any (fun w => caseContains text w) then 10 else 0
  let skills := if caseContains text "skills" then 10 else 0
  let experience := if caseContains text "experience" then 10 else 0
  ⟨contact, skills, experience, contact + skills + experience⟩

/-- The four `st.metric` renderings of the scorecard (`app.py` lines 100-104):
label paired with the displayed `value/denominator` string. -/
def scorecardMetrics (text : String) : List (String × String) :=
  let scores := resume_score text
  [("Total", toString scores.Total ++ "/100"),
   ("Contact", toString scores.Contact ++ "/20"),
   ("Skills", toString scores.Skills ++ "/20"),
   ("Experience", toString scores.Experience ++ "/25")]

/-- Analyze-mode instruction line appended by `make_prompt`. -/
def analyzeInstr : String :=
  "Analyze the resume and return ONLY valid JSON (no markdown, no explanation, no code block) with keys: assessment, strengths, weaknesses, rewritten_bullets, job_titles, freelance_ideas, keywords, rewritten_resume, bullet_resume, email_summary.\n"

/-- Cover-letter-mode instruction line appended by `make_prompt`. -/
def coverLetterInstr : String :=
  "Generate a tailored cover letter based on the resume and job description. Use a professional tone.\n"

/-- LinkedIn-mode instruction line appended by `make_prompt`. -/
def linkedinInstr : String :=
  "Suggest LinkedIn headline, summary, and experience section updates based on the resume.\n"

/-- Interview-mode instruction line appended by `make_prompt`. -/
def interviewInstr : String :=
  "Generate 5 personalized interview questions and suggested answers based on the resume and job description.\n"

/-- `make_prompt` from `app.py` (lines 23-47), with Python `None` as `none`
and Python string truthiness (`if job_description:`) as an emptiness test. -/
def make_prompt (resume_text : String) (job_description user_question : Option String)
    (mode : String) : String :=
  let base := "You are an expert career assistant. Mode: " ++ mode ++
    ".\nPlease keep your response as concise as possible."
  let base := if mode = "analyze" then base ++ analyzeInstr
    else if mode = "cover_letter" then base ++ coverLetterInstr
    else if mode = "linkedin" then base ++ linkedinInstr
    else if mode = "interview" then base ++ interviewInstr
    else base
  let base := match job_description with
    | some jd => if jd = "" then base else base ++ ("Job Description:\n" ++ jd ++ "\n")
    | none => base
  let base := match user_question with
    | some q => if q = "" then base else base ++ ("User Question:\n" ++ q ++ "\n")
    | none => base
  base ++ ("Resume Text:\n" ++ resume_text)

/-- Preamble plus mode-instruction region of a prompt (first two statements
of `make_prompt`). -/
def promptHeader (mode : String) : String :=
  let base := "You are an expert career assistant. Mode: " ++ mode ++
    ".\nPlease keep your response as concise as possible."
  if mode = "analyze" then base ++ analyzeInstr
  else if mode = "cover_letter" then base ++ coverLetterInstr
  else if mode = "linkedin" then base ++ linkedinInstr
  else if mode = "interview" then base ++ interviewInstr
  else base

/-- The job-description block contributed to a prompt: empty when the
argument is absent or empty, a labelled block otherwise. -/
def jdBlock (job_description : Option String) : String :=
  match job_description with
  | some jd => if jd = "" then "" else "Job Description:\n" ++ jd ++ "\n"
  | none => ""

/-- The user-question block contributed to a prompt: empty when the
argument is absent or empty, a labelled block otherwise. -/
def uqBlock (user_question : Option String) : String :=
  match user_question with
  | some q => if q = "" then "" else "User Question:\n" ++ q ++ "\n"
  | none => ""

/-- Parameters passed to `client.chat.completions.create` at one call site. -/
structure ModelParams where
  model : String
  temperature : Option ℚ
  max_tokens : Nat
deriving DecidableEq, Repr

/-- Parameters of the Analyze-button call (`app.py` lines 115-120):
temperature explicitly 0.2. -/
def analyzeCallParams : ModelParams := ⟨"gpt-3.5-turbo", some (2/10 : ℚ), 512⟩

/-- Parameters of the cover-letter call (lines 175-178): no temperature. -/
def coverLetterCallParams : ModelParams := ⟨"gpt-3.5-turbo", none, 512⟩

/-- Parameters of the LinkedIn call (lines 190-193): no temperature. -/
def linkedinCallParams : ModelParams := ⟨"gpt-3.5-turbo", none, 512⟩

/-- Parameters of the interview call (lines 205-208): no temperature. -/
def interviewCallParams : ModelParams := ⟨"gpt-3.5-turbo", none, 512⟩

/-- Parameters of the chat call (lines 248-252): no temperature. -/
def chatCallParams : ModelParams := ⟨"gpt-3.5-turbo", none, 512⟩

/-- Analyze-button generation request: prompt and parameters (lines 113-120). -/
def analyzeRequest (resume : String) (jd uq : Option String) : String × ModelParams :=
  (make_prompt resume jd uq "analyze", analyzeCallParams)

/-- Cover-letter generation request (lines 173-178). -/
def coverLetterRequest (resume : String) (jd : Option String) : String × ModelParams :=
  (make_prompt resume jd none "cover_letter", coverLetterCallParams)

/-- LinkedIn generation request (lines 188-193). -/
def linkedinRequest (resume : String) (jd : Option String) : String × ModelParams :=
  (make_prompt resume jd none "linkedin", linkedinCallParams)

/-- Interview generation request (lines 203-208). -/
def interviewRequest (resume : String) (jd : Option String) : String × ModelParams :=
  (make_prompt resume jd none "interview", interviewCallParams)

/-- Chat generation request (lines 246-252): an analyze-mode prompt but with
the chat call's parameters. -/
def chatRequest (demo : String) (jd : Option String) (q : String) : String × ModelParams :=
  (make_prompt demo jd (some q) "analyze", chatCallParams)

/-- Chat message role (`"user"` / `"assistant"` in `app.py`). -/
inductive Role where
  | user
  | assistant
deriving DecidableEq, Repr

/-- One entry of `st.session_state.chat_history`. -/
structure ChatTurn where
  role : Role
  content : String
deriving DecidableEq, Repr

/-- The session state of `app.py`: `st.session_state.versions` (a Python
dict, modelled as an association list with dict update semantics) and
`st.session_state.chat_history`. -/
structure SessionState where
  versions : List (String × String)
  chat_history : List ChatTurn
deriving DecidableEq, Repr

/-- Python dict assignment `d[k] = v`: replace in place if the key is
present, append otherwise. -/
def dictSetStr : List (String × String) → String → String → List (String × String)
  | [], k, v => [(k, v)]
  | p :: rest, k, v => if p.1 = k then (k, v) :: rest else p :: dictSetStr rest k v

/-- The Save-Resume-Version handler (`app.py` line 167):
`st.session_state.versions[version_name] = rewritten_resume`. -/
def saveVersion (st : SessionState) (label text : String) : SessionState :=
  ⟨dictSetStr st.versions label text, st.chat_history⟩

/-- The Clear-Chat handler (`app.py` lines 263-264):
`st.session_state.chat_history = []`. -/
def clearChat (st : SessionState) : SessionState :=
  ⟨st.versions, []⟩

/-- The assistant reply computed by the chat handler (lines 247-255): the
response content on success, an inline error string on failure. -/
def chatReply (outcome : Except String String) : String :=
  match outcome with
  | .ok r => r
  | .error e => "Oops, something went wrong: " ++ e

/-- The chat submission handler (`app.py` lines 239-257): guarded by
`if user_input:` (Python truthiness: `st.chat_input` yields `None` with no
submission, and empty strings are falsy); appends the user turn, then the
assistant turn holding `chatReply` of the generation outcome. -/
def chatHandler (st : SessionState) (user_input : Option String)
    (outcome : Except String String) : SessionState :=
  match user_input with
  | none => st
  | some msg =>
    if msg = "" then st
    else
      let st1 : SessionState := ⟨st.versions, st.chat_history ++ [⟨Role.user, msg⟩]⟩
      ⟨st1.versions, st1.chat_history ++ [⟨Role.assistant, chatReply outcome⟩]⟩

/-- A Python value produced by `json.loads`.  Numbers keep their source
lexeme (no floating-point semantics are needed by the handlers: only
truthiness and type names are consumed). -/
inductive Json where
  | null
  | bool (b : Bool)
  | num (lexeme : String)
  | str (s : String)
  | arr (elems : List Json)
  | obj (pairs : List (String × Json))
deriving Repr

/-- JSON whitespace accepted between tokens. -/
def wsChar (c : Char) : Bool :=
  c = ' ' || c = '\t' || c = '\n' || c = '\r'

/-- Advance past whitespace starting at index `i`. -/
def skipWs (fuel : Nat) (s : List Char) (i : Nat) : Nat :=
  match fuel with
  | 0 => i
  | f + 1 =>
    match s.get? i with
    | some c => if wsChar c then skipWs f s (i + 1) else i
    | none => i

/-- Is the literal `lit` present at index `i`? -/
def litAt (s : List Char) (i : Nat) (lit : String) : Bool :=
  lit.data.isPrefixOf (s.drop i)

/-- Value of one hexadecimal digit. -/
def hexVal (c : Char) : Option Nat :=
  if '0' ≤ c ∧ c ≤ '9' then some (c.toNat - 48)
  else if 'a' ≤ c ∧ c ≤ 'f' then some (c.toNat - 87)
  else if 'A' ≤ c ∧ c ≤ 'F' then some (c.toNat - 55)
  else none

/-- Four hexadecimal digits at index `i`, as a code point. -/
def hex4 (s : List Char) (i : Nat) : Option Nat := do
  let h0 ← hexVal (← s.get? i)
  let h1 ← hexVal (← s.get? (i+1))
  let h2 ← hexVal (← s.get? (i+2))
  let h3 ← hexVal (← s.get? (i+3))
  pure (h0 * 4096 + h1 * 256 + h2 * 16 + h3)

/-- Short JSON string escapes (`\" \\ \/ \b \f \n \r \t`). -/
def escTable (c : Char) : Option Char :=
  if c = '"' then some '"'
  else if c = '\\' then some '\\'
  else if c = '/' then some '/'
  else if c = 'b' then some (Char.ofNat 8)
  else if c = 'f' then some (Char.ofNat 12)
  else if c = 'n' then some '\n'
  else if c = 'r' then some '\r'
  else if c = 't' then some '\t'
  else none

/-- Turn a BMP code from a `\uXXXX` escape into a character; a lone
surrogate becomes the replacement character. -/
def codeToChar (code : Nat) : Char :=
  if code < 0xD800 then Char.ofNat code
  else if code ≤ 0xDFFF then Char.ofNat 0xFFFD
  else Char.ofNat code

/-- Scan the body of a JSON string (after the opening quote at `beginPos`);
mirrors Python's strict `scanstring` (escapes, surrogate pairs, control
characters rejected).  Errors are (message kind, position). -/
def parseStrGo (s : List Char) (beginPos : Nat) :
    Nat → Nat → List Char → Except (String × Nat) (String × Nat)
  | 0, _, _ => .error ("Unterminated string starting at", beginPos)
  | fuel + 1, j, acc =>
    match s.get? j with
    | none => .error ("Unterminated string starting at", beginPos)
    | some c =>
      if c = '"' then .ok (String.mk acc.reverse, j + 1)
      else if c = '\\' then
        match s.get? (j + 1) with
        | none => .error ("Unterminated string starting at", beginPos)
        | some e =>
          if e = 'u' then
            match hex4 s (j + 2) with
            | none => .error ("Invalid \\uXXXX escape", j + 1)
            | some code =>
              if 0xD800 ≤ code ∧ code ≤ 0xDBFF then
                match s.get? (j + 6), s.get? (j + 7), hex4 s (j + 8) with
                | some b1, some u1, some code2 =>
                  if b1 = '\\' ∧ u1 = 'u' ∧ 0xDC00 ≤ code2 ∧ code2 ≤ 0xDFFF then
                    parseStrGo s beginPos fuel (j + 12)
                      ((Char.ofNat (0x10000 + (code - 0xD800) * 0x400 + (code2 - 0xDC00))) :: acc)
                  else parseStrGo s beginPos fuel (j + 6) (codeToChar code :: acc)
                | _, _, _ => parseStrGo s beginPos fuel (j + 6) (codeToChar code :: acc)
              else parseStrGo s beginPos fuel (j + 6) (codeToChar code :: acc)
          else
            match escTable e with
            | some ch => parseStrGo s beginPos fuel (j + 2) (ch :: acc)
            | none => .error ("Invalid \\escape", j + 1)
      else if c.toNat < 0x20 then .error ("Invalid control character at", j)
      else parseStrGo s beginPos fuel (j + 1) (c :: acc)

/-- Scan a JSON string literal whose opening quote sits at index `i`;
returns the decoded string and the index after the closing quote. -/
def parseStr (s : List Char) (i : Nat) : Except (String × Nat) (String × Nat) :=
  parseStrGo s i (s.length + 1) (i + 1) []

/-- Advance past a run of decimal digits starting at `i`. -/
def digitRun (fuel : Nat) (s : List Char) (i : Nat) : Nat :=
  match fuel with
  | 0 => i
  | f + 1 =>
    match s.get? i with
    | some c => if c.isDigit then digitRun f s (i + 1) else i
    | none => i

/-- Scan a JSON number at index `i` following Python's `NUMBER_RE`
(`-?(0|[1-9]\d*)(\.\d+)?([eE][-+]?\d+)?`); returns the lexeme and the
index after it, or `none` when the regex does not match at `i`. -/
def parseNum (s : List Char) (i : Nat) : Option (String × Nat) :=
  let n := s.length
  let j0 := if s.get? i = some '-' then i + 1 else i
  let intEnd : Option Nat :=
    match s.get? j0 with
    | some c =>
      if c = '0' then some (j0 + 1)
      else if c.isDigit then some (digitRun (n + 1) s (j0 + 1))
      else none
    | none => none
  match intEnd with
  | none => none
  | some j1 =>
    let j2 :=
      match s.get? j1 with
      | some c =>
        if c = '.' then
          match s.get? (j1 + 1) with
          | some d => if d.isDigit then digitRun (n + 1) s (j1 + 2) else j1
          | none => j1
        else j1
      | none => j1
    let j3 :=
      match s.get? j2 with
      | some c =>
        if c = 'e' ∨ c = 'E' then
          let k :=
            match s.get? (j2 + 1) with
            | some sgn => if sgn = '+' ∨ sgn = '-' then j2 + 2 else j2 + 1
            | none => j2 + 1
          match s.get? k with
          | some d => if d.isDigit then digitRun (n + 1) s (k + 1) else j2
          | none => j2
        else j2
      | none => j2
    some (String.mk ((s.drop i).take (j3 - i)), j3)

/-- Python dict insertion used while building a parsed JSON object:
duplicate keys keep their first position, last value wins. -/
def dictInsertJson : List (String × Json) → String → Json → List (String × Json)
  | [], k, v => [(k, v)]
  | p :: rest, k, v => if p.1 = k then (k, v) :: rest else p :: dictInsertJson rest k v

mutual

/-- Scan one JSON value at index `i`, mirroring Python's `_scan_once`
dispatch order.  `fuel` bounds recursion depth; `json_loads` supplies
enough for any input. -/
def parseVal : Nat → List Char → Nat → Except (String × Nat) (Json × Nat)
  | 0, _, i => .error ("Expecting value", i)
  | fuel + 1, s, i =>
    match s.get? i with
    | none => .error ("Expecting value", i)
    | some c =>
      if c = '"' then
        match parseStr s i with
        | .error e => .error e
        | .ok (st, j) => .ok (Json.str st, j)
      else if c = '{' then
        let j := skipWs (s.length + 1) s (i + 1)
        match s.get? j with
        | some d =>
          if d = '}' then .ok (Json.obj [], j + 1)
          else if d = '"' then parseMembers fuel s j []
          else .error ("Expecting property name enclosed in double quotes", j)
        | none => .error ("Expecting property name enclosed in double quotes", j)
      else if c = '[' then
        let j := skipWs (s.length + 1) s (i + 1)
        match s.get? j with
        | some d => if d = ']' then .ok (Json.arr [], j + 1) else parseElems fuel s j []
        | none => parseElems fuel s j []
      else if litAt s i "null" then .ok (Json.null, i + 4)
      else if litAt s i "true" then .ok (Json.bool true, i + 4)
      else if litAt s i "false" then .ok (Json.bool false, i + 5)
      else
        match parseNum s i with
        | some (lex, j) => .ok (Json.num lex, j)
        | none =>
          if litAt s i "NaN" then .ok (Json.num "NaN", i + 3)
          else if litAt s i "Infinity" then .ok (Json.num "Infinity", i + 8)
          else if litAt s i "-Infinity" then .ok (Json.num "-Infinity", i + 9)
          else .error ("Expecting value", i)

/-- Scan array elements; `i` is positioned at a value (whitespace already
skipped), `acc` holds earlier elements. -/
def parseElems : Nat → List Char → Nat → List Json → Except (String × Nat) (Json × Nat)
  | 0, _, i, _ => .error ("Expecting value", i)
  | fuel + 1, s, i, acc =>
    match parseVal fuel s i with
    | .error e => .error e
    | .ok (v, j) =>
      let acc2 := acc ++ [v]
      let j2 := skipWs (s.length + 1) s j
      match s.get? j2 with
      | some d =>
        if d = ']' then .ok (Json.arr acc2, j2 + 1)
        else if d = ',' then parseElems fuel s (skipWs (s.length + 1) s (j2 + 1)) acc2
        else .error ("Expecting ',' delimiter", j2)
      | none => .error ("Expecting ',' delimiter", j2)

/-- Scan object members; `i` is positioned at the opening quote of a key,
`acc` holds earlier pairs with dict semantics. -/
def parseMembers : Nat → List Char → Nat → List (String × Json) →
    Except (String × Nat) (Json × Nat)
  | 0, _, i, _ => .error ("Expecting value", i)
  | fuel + 1, s, i, acc =>
    match parseStr s i with
    | .error e => .error e
    | .ok (key, j) =>
      let j2 := skipWs (s.length + 1) s j
      match s.get? j2 with
      | some colon =>
        if colon = ':' then
          match parseVal fuel s (skipWs (s.length + 1) s (j2 + 1)) with
          | .error e => .error e
          | .ok (v, j3) =>
            let acc2 := dictInsertJson acc key v
            let j4 := skipWs (s.length + 1) s j3
            match s.get? j4 with
            | some d =>
              if d = '}' then .ok (Json.obj acc2, j4 + 1)
              else if d = ',' then
                let j5 := skipWs (s.length + 1) s (j4 + 1)
                match s.get? j5 with
                | some q =>
                  if q = '"' then parseMembers fuel s j5 acc2
                  else .error ("Expecting property name enclosed in double quotes", j5)
                | none => .error ("Expecting property name enclosed in double quotes", j5)
              else .error ("Expecting ',' delimiter", j4)
            | none => .error ("Expecting ',' delimiter", j4)
        else .error ("Expecting ':' delimiter", j2)
      | none => .error ("Expecting ':' delimiter", j2)

end

/-- 1-based line number of byte position `pos` in `doc` (as in Python's
`JSONDecodeError`). -/
def lineOf (doc : List Char) (pos : Nat) : Nat :=
  ((doc.take pos).filter (fun c => c = '\n')).length + 1

/-- 1-based column number of position `pos` in `doc` (as in Python's
`JSONDecodeError`). -/
def colOf (doc : List Char) (pos : Nat) : Nat :=
  match (doc.take pos).reverse.findIdx? (fun c => c = '\n') with
  | some j => j + 1
  | none => pos + 1

/-- Render a decode error the way `str(json.JSONDecodeError)` does:
`"<kind>: line L column C (char N)"`.  The document text itself never
appears in the message. -/
def fmtErr (kind : String) (doc : List Char) (pos : Nat) : String :=
  kind ++ ": line " ++ toString (lineOf doc pos) ++ " column " ++ toString (colOf doc pos) ++
    " (char " ++ toString pos ++ ")"

/-- `json.loads`: parse a complete JSON document, requiring only
whitespace after the value; errors carry the rendered exception message. -/
def json_loads (raw : String) : Except String Json :=
  let s := raw.data
  let i0 := skipWs (s.length + 1) s 0
  match parseVal (2 * s.length + 2) s i0 with
  | .error (kind, pos) => .error (fmtErr kind s pos)
  | .ok (v, j) =>
    let j2 := skipWs (s.length + 1) s j
    if j2 < s.length then .error (fmtErr "Extra data" s j2)
    else .ok v

/-- The Python type name of a parsed JSON value, as it appears in runtime
error messages. -/
def pyTypeName : Json → String
  | .null => "NoneType"
  | .bool _ => "bool"
  | .num lex => if lex.data.all (fun c => c.isDigit ∨ c = '-') then "int" else "float"
  | .str _ => "str"
  | .arr _ => "list"
  | .obj _ => "dict"

/-- Truthiness of a parsed JSON number: false exactly for (integer or
float) zero. -/
def numTruthy (lex : String) : Bool :=
  (lex.data.takeWhile (fun c => c ≠ 'e' ∧ c ≠ 'E')).any (fun c => c.isDigit ∧ c ≠ '0') ||
    lex = "NaN" || lex = "Infinity" || lex = "-Infinity"

/-- Python truthiness (`if result:` and the like) of a parsed JSON value. -/
def pyTruthy : Json → Bool
  | .null => false
  | .bool b => b
  | .num lex => numTruthy lex
  | .str s => !(s == "")
  | .arr xs => !xs.isEmpty
  | .obj kvs => !kvs.isEmpty

/-- Python `dict.get(k, dflt)` on a parsed JSON object. -/
def pyGet (kvs : List (String × Json)) (k : String) (dflt : Json) : Json :=
  match kvs.find? (fun p => p.1 == k) with
  | some p => p.2
  | none => dflt

/-- An exception escaping the handler's `try`/`except` block. -/
inductive PyExn where
  | attributeError (msg : String)
  | typeError (msg : String)
deriving DecidableEq, Repr

/-- Python iteration (`for x in v`) over a parsed JSON value: lists yield
elements, strings yield one-character strings, dicts yield keys, and
everything else raises `TypeError`. -/
def pyIter : Json → Except PyExn (List Json)
  | .arr xs => .ok xs
  | .str s => .ok (s.data.map (fun c => Json.str (String.singleton c)))
  | .obj kvs => .ok (kvs.map (fun p => Json.str p.1))
  | v => .error (.typeError ("'" ++ pyTypeName v ++ "' object is not iterable"))

/-- Collect the elements of a sequence for `str.join`, raising `TypeError`
at the first non-string element (with its index, as Python does). -/
def joinElems : List Json → Nat → Except PyExn (List String)
  | [], _ => .ok []
  | x :: rest, i =>
    match x with
    | .str s => (joinElems rest (i + 1)).map (fun l => s :: l)
    | v => .error (.typeError ("sequence item " ++ toString i ++ ": expected str instance, " ++
        pyTypeName v ++ " found"))

/-- Python `sep.join(v)` on a parsed JSON value. -/
def pyJoin (sep : String) (v : Json) : Except PyExn String :=
  match v with
  | .str s => .ok (String.intercalate sep (s.data.map String.singleton))
  | .arr xs => (joinElems xs 0).map (fun l => String.intercalate sep l)
  | .obj kvs => (joinElems (kvs.map (fun p => Json.str p.1)) 0).map
      (fun l => String.intercalate sep l)
  | _ => .error (.typeError "can only join an iterable")

/-- `true` exactly on a successful `Except`. -/
def isOkE {ε α : Type} : Except ε α → Bool
  | .ok _ => true
  | .error _ => false

/-- The values the Analyze handler displays from a decoded response object
(`app.py` lines 127-163): each field is the result of the corresponding
`result.get` call, post-processed exactly as the rendering code does
(iteration for the bulleted lists, `", ".join` for the two joined lists,
truthiness gating for the two optional resume texts). -/
structure RenderedAnalysis where
  assessment : Json
  strengths : List Json
  weaknesses : List Json
  rewritten_bullets : List Json
  job_titles : String
  freelance_ideas : List Json
  keywords : String
  email_summary : Json
  bullet_resume : Option Json
  rewritten_resume : Option Json
deriving Repr

/-- What the Analyze action leaves on screen: an `st.error` message (if
the `except` branch ran) and the rendered analysis sections (if `result`
was truthy and rendering completed). -/
structure AnalyzeOutput where
  errorMsg : Option String
  rendered : Option RenderedAnalysis
deriving Repr

/-- The rendering block of the Analyze handler (`app.py` lines 127-163),
reading fields out of the decoded object with `result.get` defaults, in
source order; a `.error` is an exception escaping the handler. -/
def renderAnalysis (kvs : List (String × Json)) : Except PyExn RenderedAnalysis :=
  match pyIter (pyGet kvs "strengths" (Json.arr [])) with
  | .error e => .error e
  | .ok strengths =>
    match pyIter (pyGet kvs "weaknesses" (Json.arr [])) with
    | .error e => .error e
    | .ok weaknesses =>
      match pyIter (pyGet kvs "rewritten_bullets" (Json.arr [])) with
      | .error e => .error e
      | .ok rewritten_bullets =>
        match pyJoin ", " (pyGet kvs "job_titles" (Json.arr [])) with
        | .error e => .error e
        | .ok job_titles =>
          match pyIter (pyGet kvs "freelance_ideas" (Json.arr [])) with
          | .error e => .error e
          | .ok freelance_ideas =>
            match pyJoin ", " (pyGet kvs "keywords" (Json.arr [])) with
            | .error e => .error e
            | .ok keywords =>
              let bullet_resume := pyGet kvs "bullet_resume" (Json.str "")
              let rewritten_resume := pyGet kvs "rewritten_resume" (Json.str "")
              .ok ⟨pyGet kvs "assessment" (Json.str ""), strengths, weaknesses,
                rewritten_bullets, job_titles, freelance_ideas, keywords,
                pyGet kvs "email_summary" (Json.str ""),
                if pyTruthy bullet_resume then some bullet_resume else none,
                if pyTruthy rewritten_resume then some rewritten_resume else none⟩

/-- The Analyze & Rewrite Resume handler (`app.py` lines 111-163): the
`try` block calls the API and `json.loads`; any exception there is shown
via `st.error` and `result` becomes `{}`; then `if result:` gates the
rendering block, whose own exceptions (`result.get` on a non-dict,
iterating or joining wrongly-typed fields) are NOT caught and escape as
`.error`. -/
def analyzeHandler (outcome : Except String String) : Except PyExn AnalyzeOutput :=
  let pair : Option String × Json :=
    match outcome with
    | .error e => (some ("OpenAI API call failed: " ++ e), Json.obj [])
    | .ok raw =>
      match json_loads raw with
      | .error e => (some ("OpenAI API call failed: " ++ e), Json.obj [])
      | .ok v => (none, v)
  if pyTruthy pair.2 then
    match pair.2 with
    | .obj kvs => (renderAnalysis kvs).map (fun r => ⟨pair.1, some r⟩)
    | v => .error (.attributeError ("'" ++ pyTypeName v ++ "' object has no attribute 'get'"))
  else .ok ⟨pair.1, none⟩

/-- What a free-text action (cover letter, LinkedIn, interview) leaves on
screen. -/
structure FreeTextOutput where
  errorMsg : Option String
  rendered : Option String
deriving DecidableEq, Repr

/-- A free-text handler (`app.py` lines 171-183, 186-198, 201-213): show
the response text on success, an `st.error` message on failure; the whole
body is inside `try`/`except`, so nothing escapes. -/
def freeTextHandler (outcome : Except String String) : FreeTextOutput :=
  match outcome with
  | .ok r => ⟨none, some r⟩
  | .error e => ⟨some ("OpenAI API call failed: " ++ e), none⟩

/-- Helper: an `Err` generation outcome makes the Analyze handler show the
error and render nothing. -/
theorem analyzeHandler_apiError (e : String) :
    analyzeHandler (.error e) = .ok ⟨some ("OpenAI API call failed: " ++ e), none⟩ := rfl

/-- Helper: a parse failure makes the Analyze handler show the exception
message and render nothing. -/
theorem analyzeHandler_parseError (raw e : String) (h : json_loads raw = .error e) :
    analyzeHandler (.ok raw) = .ok ⟨some ("OpenAI API call failed: " ++ e), none⟩ := by
  simp [analyzeHandler, h, pyTruthy]

/-- C6: the scorer is the deterministic function giving Contact = 10 iff
the text case-insensitively contains "email", "phone" or "contact" (else
0), Skills = 10 iff it contains "skills", Experience = 10 iff it contains
"experience", with Total their sum; the sample resume scores
`{Contact:10, Skills:0, Experience:10, Total:20}` and the empty string
scores all zeros. -/
theorem resume_score_spec :
    (∀ text : String,
      (resume_score text).Contact =
        (if caseContains text "email" || caseContains text "phone" ||
            caseContains text "contact" then 10 else 0)
      ∧ (resume_score text).Skills = (if caseContains text "skills" then 10 else 0)
      ∧ (resume_score text).Experience = (if caseContains text "experience" then 10 else 0)
      ∧ (resume_score text).Total =
          (resume_score text).Contact + (resume_score text).Skills +
            (resume_score text).Experience)
    ∧ resume_score "John Doe, email: j@x.com, 5 years experience in sales" = ⟨10, 0, 10, 20⟩
    ∧ resume_score "" = ⟨0, 0, 0, 0⟩ := by
  refine ⟨fun text => ⟨?_, rfl, rfl, rfl⟩, by decide, by decide⟩
  simp [resume_score, List.any_cons, List.any_nil, Bool.or_assoc]

/-- C10: each category score is 0 or 10, so the total is one of
0/10/20/30 and never exceeds 30, while the UI renders the total over 100
and the categories over 20, 20 and 25. -/
theorem resume_score_bounds (text : String) :
    ((resume_score text).Contact = 0 ∨ (resume_score text).Contact = 10)
    ∧ ((resume_score text).Skills = 0 ∨ (resume_score text).Skills = 10)
    ∧ ((resume_score text).Experience = 0 ∨ (resume_score text).Experience = 10)
    ∧ ((resume_score text).Total = 0 ∨ (resume_score text).Total = 10 ∨
        (resume_score text).Total = 20 ∨ (resume_score text).Total = 30)
    ∧ (resume_score text).Total ≤ 30
    ∧ scorecardMetrics text =
        [("Total", toString (resume_score text).Total ++ "/100"),
         ("Contact", toString (resume_score text).Contact ++ "/20"),
         ("Skills", toString (resume_score text).Skills ++ "/20"),
         ("Experience", toString (resume_score text).Experience ++ "/25")] := by
  refine ⟨?_, ?_, ?_, ?_, ?_, rfl⟩ <;>
    rcases hc : (["email", "phone", "contact"].any fun w => caseContains text w) <;>
    rcases hs : caseContains text "skills" <;>
    rcases he : caseContains text "experience" <;>
    simp [resume_score, hc, hs, he]

/-- C9: clearing the chat empties the chat-turn sequence and leaves the
saved-versions map untouched. -/
theorem clearChat_frame (st : SessionState) :
    (clearChat st).chat_history = [] ∧ (clearChat st).versions = st.versions :=
  ⟨rfl, rfl⟩

/-- Helper: one dict assignment leaves exactly one entry for the key,
provided the map held at most one before. -/
theorem dictSetStr_filter (d : List (String × String)) (k v : String)
    (h : (d.filter (fun p => p.1 == k)).length ≤ 1) :
    (dictSetStr d k v).filter (fun p => p.1 == k) = [(k, v)] := by
  induction d with
  | nil => simp [dictSetStr]
  | cons p rest ih =>
    by_cases hp : p.1 = k
    · have hrest : rest.filter (fun p => p.1 == k) = [] := by
        simp [List.filter_cons, hp] at h
        refine List.filter_eq_nil_iff.mpr ?_
        intro p2 hp2
        simpa using h p2.1 p2.2 hp2
      simp [dictSetStr, hp, List.filter_cons, hrest]
    · have h' : (rest.filter (fun p => p.1 == k)).length ≤ 1 := by
        simpa [List.filter_cons, hp] using h
      simp [dictSetStr, hp, List.filter_cons, ih h']

/-- C7: saving a version under a label and then saving again under the
same label leaves exactly one entry for that label, holding the second
text (insert-or-overwrite, last write wins), provided the map held at most
one entry for that label beforehand (always true for states built by dict
assignment). -/
theorem saveVersion_overwrite (st : SessionState) (label t1 t2 : String)
    (h : (st.versions.filter (fun p => p.1 == label)).length ≤ 1) :
    ((saveVersion (saveVersion st label t1) label t2).versions).filter
        (fun p => p.1 == label) = [(label, t2)] := by
  have h1 := dictSetStr_filter st.versions label t1 h
  have h2 : (((saveVersion st label t1).versions).filter (fun p => p.1 == label)).length ≤ 1 := by
    simp [saveVersion, h1]
  simpa [saveVersion] using dictSetStr_filter (saveVersion st label t1).versions label t2 h2

/-- C7 witness: saving "V1" twice from an empty session leaves exactly one
"V1" entry holding the second text. -/
theorem saveVersion_overwrite_witness :
    ((saveVersion (saveVersion ⟨[], []⟩ "V1" "first text") "V1" "second text").versions).filter
        (fun p => p.1 == "V1") = [("V1", "second text")] :=
  saveVersion_overwrite ⟨[], []⟩ "V1" "first text" "second text" (by decide)

/-- C8: a chat submission whose generation call fails appends exactly two
turns — the user turn with the original message and an assistant turn
holding a non-empty error string — and clearing the chat afterwards
empties the turn sequence (versions untouched). -/
theorem chat_failure_appends_two_turns (st : SessionState) (msg e : String) (h : msg ≠ "") :
    (chatHandler st (some msg) (.error e)).chat_history =
      st.chat_history ++
        [⟨Role.user, msg⟩, ⟨Role.assistant, "Oops, something went wrong: " ++ e⟩]
    ∧ ("Oops, something went wrong: " ++ e) ≠ ""
    ∧ (clearChat (chatHandler st (some msg) (.error e))).chat_history = []
    ∧ (chatHandler st (some msg) (.error e)).versions = st.versions := by
  refine ⟨?_, ?_, rfl, ?_⟩
  · simp [chatHandler, h, chatReply]
  · intro hc
    have hl := congrArg String.length hc
    rw [String.length_append] at hl
    have h28 : String.length "Oops, something went wrong: " = 28 := by decide
    have h0 : String.length "" = 0 := rfl
    omega
  · simp [chatHandler, h]

/-- C8 witness: concrete failed chat submission from an empty session. -/
theorem chat_failure_appends_two_turns_witness :
    (chatHandler ⟨[], []⟩ (some "hello") (.error "rate limit")).chat_history =
      [⟨Role.user, "hello"⟩, ⟨Role.assistant, "Oops, something went wrong: rate limit"⟩]
    ∧ (clearChat (chatHandler ⟨[], []⟩ (some "hello") (.error "rate limit"))).chat_history = [] := by
  have h := chat_failure_appends_two_turns ⟨[], []⟩ "hello" "rate limit" (by decide)
  exact ⟨h.1.trans (by decide), h.2.2.1⟩

/-- C4 (amended): the Analyze button's request carries temperature 0.2,
while the cover-letter, LinkedIn and interview requests — and also the
chat request, despite its analyze-mode prompt — leave temperature unset. -/
theorem temperature_per_call_site (r demo q : String) (jd uq : Option String) :
    (analyzeRequest r jd uq).2.temperature = some (2/10 : ℚ)
    ∧ (coverLetterRequest r jd).2.temperature = none
    ∧ (linkedinRequest r jd).2.temperature = none
    ∧ (interviewRequest r jd).2.temperature = none
    ∧ (chatRequest demo jd q).2.temperature = none
    ∧ (chatRequest demo jd q).1 = make_prompt demo jd (some q) "analyze" :=
  ⟨rfl, rfl, rfl, rfl, rfl, rfl⟩

/-- C4 counterexample: the chat submission builds an analyze-mode prompt
yet its generation request has no temperature set, so not every
Analyze-mode request is issued with temperature 0.2. -/
theorem chat_request_temperature_unset :
    (chatRequest "demo resume" none "what should I improve?").1 =
      make_prompt "demo resume" none (some "what should I improve?") "analyze"
    ∧ (chatRequest "demo resume" none "what should I improve?").2.temperature ≠
        some (2/10 : ℚ) :=
  ⟨rfl, by simp [chatRequest, chatCallParams]⟩

/-- C5: every prompt decomposes as preamble-and-mode-instructions, then
the job-description block, then the user-question block, then the resume
label and text; the resume text is a verbatim suffix; a non-empty job
description (resp. user question) appears verbatim, and an absent or empty
one contributes no block at all. -/
theorem make_prompt_structure (r : String) (jd q : Option String) (m : String) :
    make_prompt r jd q m =
      promptHeader m ++ (jdBlock jd ++ (uqBlock q ++ ("Resume Text:\n" ++ r)))
    ∧ (∃ a, make_prompt r jd q m = a ++ r)
    ∧ (∀ s, jd = some s → s ≠ "" → ∃ a b, make_prompt r jd q m = a ++ (s ++ b))
    ∧ jdBlock none = "" ∧ jdBlock (some "") = ""
    ∧ (∀ s, q = some s → s ≠ "" → ∃ a b, make_prompt r jd q m = a ++ (s ++ b))
    ∧ uqBlock none = "" ∧ uqBlock (some "") = "" := by
  have heq : make_prompt r jd q m =
      promptHeader m ++ (jdBlock jd ++ (uqBlock q ++ ("Resume Text:\n" ++ r))) := by
    rcases jd with _ | s1 <;> rcases q with _ | s2 <;>
      simp only [make_prompt, promptHeader, jdBlock, uqBlock] <;>
      [skip; by_cases h2 : s2 = ""; by_cases h1 : s1 = "";
        by_cases h1 : s1 = "" <;> by_cases h2 : s2 = ""] <;>
      simp [*, String.append_assoc, String.empty_append, String.append_empty]
  refine ⟨heq, ⟨promptHeader m ++ (jdBlock jd ++ (uqBlock q ++ "Resume Text:\n")), ?_⟩,
    ?_, rfl, rfl, ?_, rfl, rfl⟩
  · rw [heq]; simp [String.append_assoc]
  · intro s hjd hs
    subst hjd
    refine ⟨promptHeader m ++ "Job Description:\n",
      "\n" ++ (uqBlock q ++ ("Resume Text:\n" ++ r)), ?_⟩
    rw [heq]
    simp [jdBlock, hs, String.append_assoc]
  · intro s hq hs
    subst hq
    refine ⟨promptHeader m ++ (jdBlock jd ++ "User Question:\n"),
      "\n" ++ ("Resume Text:\n" ++ r), ?_⟩
    rw [heq]
    simp [uqBlock, hs, String.append_assoc]

/-- C5 witness: the job description and the resume text of a concrete
analyze prompt appear verbatim, the resume as a suffix. -/
theorem make_prompt_structure_witness :
    (∃ a b, make_prompt "MY RESUME" (some "THE JD") (some "THE QUESTION") "analyze" =
      a ++ ("THE JD" ++ b))
    ∧ (∃ a, make_prompt "MY RESUME" (some "THE JD") (some "THE QUESTION") "analyze" =
      a ++ "MY RESUME") := by
  have h := make_prompt_structure "MY RESUME" (some "THE JD") (some "THE QUESTION") "analyze"
  exact ⟨h.2.2.1 "THE JD" rfl (by decide), h.2.1⟩

/-- C1 counterexample: on markdown-fenced JSON the Analyze handler's entire
output is a fixed exception message (position information only) with
nothing rendered; the original raw text is not contained in it, i.e. it is
dropped rather than preserved for debugging. -/
theorem decode_failure_drops_raw_text :
    analyzeHandler (.ok "```json\n\x7b\"assessment\": \"good\"\x7d\n```") =
      .ok ⟨some "OpenAI API call failed: Expecting value: line 1 column 1 (char 0)", none⟩
    ∧ strContains "OpenAI API call failed: Expecting value: line 1 column 1 (char 0)"
        "```json\n\x7b\"assessment\": \"good\"\x7d\n```" = false :=
  ⟨rfl, by decide⟩

/-- C1 (amended): for every rawText that does not parse as JSON, the
Analyze handler shows a user-visible error built from the decode
exception's message (which carries only line/column/offset data) and
renders nothing; the raw text itself is not preserved in the output. -/
theorem decode_failure_reports_without_raw (raw e : String)
    (h : json_loads raw = .error e) :
    analyzeHandler (.ok raw) = .ok ⟨some ("OpenAI API call failed: " ++ e), none⟩ :=
  analyzeHandler_parseError raw e h

/-- C1 witness: concrete non-JSON text. -/
theorem decode_failure_reports_without_raw_witness :
    analyzeHandler (.ok "not json") =
      .ok ⟨some ("OpenAI API call failed: " ++
        "Expecting value: line 1 column 1 (char 0)"), none⟩ :=
  decode_failure_reports_without_raw "not json"
    "Expecting value: line 1 column 1 (char 0)" (by rfl)

/-- C2 counterexample: a rawText parsing to a JSON object whose
"strengths" value is a number makes the rendering loop raise an uncaught
`TypeError`, so not every object-valued parse decodes without failure. -/
theorem analyze_nonlist_field_raises :
    analyzeHandler (.ok "\x7b\"strengths\": 5\x7d") =
      .error (.typeError "'int' object is not iterable") := rfl

/-- C2 (amended): for every rawText parsing to a JSON object — provided
the four bullet-list fields are iterable and the two joined fields are
lists of strings (or strings) when present — decoding succeeds with no
failure: present fields are used exactly as supplied via `result.get`,
absent keys default to empty string or empty list, extra keys are ignored;
an empty object is not an error (nothing is rendered, no message shown). -/
theorem analyze_object_decode_lenient (raw : String) (kvs : List (String × Json))
    (h : json_loads raw = .ok (Json.obj kvs)) :
    (kvs = [] → analyzeHandler (.ok raw) = .ok ⟨none, none⟩)
    ∧ (kvs ≠ [] →
        isOkE (pyIter (pyGet kvs "strengths" (Json.arr []))) = true →
        isOkE (pyIter (pyGet kvs "weaknesses" (Json.arr []))) = true →
        isOkE (pyIter (pyGet kvs "rewritten_bullets" (Json.arr []))) = true →
        isOkE (pyJoin ", " (pyGet kvs "job_titles" (Json.arr []))) = true →
        isOkE (pyIter (pyGet kvs "freelance_ideas" (Json.arr []))) = true →
        isOkE (pyJoin ", " (pyGet kvs "keywords" (Json.arr []))) = true →
        ∃ (strengths weaknesses rewritten_bullets freelance_ideas : List Json)
          (job_titles keywords : String),
          pyIter (pyGet kvs "strengths" (Json.arr [])) = .ok strengths
          ∧ pyIter (pyGet kvs "weaknesses" (Json.arr [])) = .ok weaknesses
          ∧ pyIter (pyGet kvs "rewritten_bullets" (Json.arr [])) = .ok rewritten_bullets
          ∧ pyJoin ", " (pyGet kvs "job_titles" (Json.arr [])) = .ok job_titles
          ∧ pyIter (pyGet kvs "freelance_ideas" (Json.arr [])) = .ok freelance_ideas
          ∧ pyJoin ", " (pyGet kvs "keywords" (Json.arr [])) = .ok keywords
          ∧ analyzeHandler (.ok raw) = .ok ⟨none, some
              ⟨pyGet kvs "assessment" (Json.str ""), strengths, weaknesses,
                rewritten_bullets, job_titles, freelance_ideas, keywords,
                pyGet kvs "email_summary" (Json.str ""),
                if pyTruthy (pyGet kvs "bullet_resume" (Json.str ""))
                  then some (pyGet kvs "bullet_resume" (Json.str "")) else none,
                if pyTruthy (pyGet kvs "rewritten_resume" (Json.str ""))
                  then some (pyGet kvs "rewritten_resume" (Json.str "")) else none⟩⟩) := by
  constructor
  · intro hk
    subst hk
    simp [analyzeHandler, h, pyTruthy]
  · intro hk h1 h2 h3 h4 h5 h6
    have hne : kvs.isEmpty = false := by
      cases kvs with
      | nil => exact absurd rfl hk
      | cons a l => rfl
    rcases e1 : pyIter (pyGet kvs "strengths" (Json.arr [])) with e | strengths
    · rw [e1] at h1; exact absurd h1 (by simp [isOkE])
    rcases e2 : pyIter (pyGet kvs "weaknesses" (Json.arr [])) with e | weaknesses
    · rw [e2] at h2; exact absurd h2 (by simp [isOkE])
    rcases e3 : pyIter (pyGet kvs "rewritten_bullets" (Json.arr [])) with e | rewritten_bullets
    · rw [e3] at h3; exact absurd h3 (by simp [isOkE])
    rcases e4 : pyJoin ", " (pyGet kvs "job_titles" (Json.arr [])) with e | job_titles
    · rw [e4] at h4; exact absurd h4 (by simp [isOkE])
    rcases e5 : pyIter (pyGet kvs "freelance_ideas" (Json.arr [])) with e | freelance_ideas
    · rw [e5] at h5; exact absurd h5 (by simp [isOkE])
    rcases e6 : pyJoin ", " (pyGet kvs "keywords" (Json.arr [])) with e | keywords
    · rw [e6] at h6; exact absurd h6 (by simp [isOkE])
    refine ⟨strengths, weaknesses, rewritten_bullets, freelance_ideas, job_titles, keywords,
      rfl, rfl, rfl, rfl, rfl, rfl, ?_⟩
    simp [analyzeHandler, h, pyTruthy, hne, renderAnalysis, e1, e2, e3, e4, e5, e6,
      Except.map]

/-- C2 witness: a one-key object decodes without failure, with the
supplied assessment and all other fields at their defaults. -/
theorem analyze_object_decode_lenient_witness :
    ∃ (strengths weaknesses rewritten_bullets freelance_ideas : List Json)
      (job_titles keywords : String),
      pyIter (pyGet [("assessment", Json.str "ok")] "strengths" (Json.arr [])) = .ok strengths
      ∧ pyIter (pyGet [("assessment", Json.str "ok")] "weaknesses" (Json.arr [])) =
          .ok weaknesses
      ∧ pyIter (pyGet [("assessment", Json.str "ok")] "rewritten_bullets" (Json.arr [])) =
          .ok rewritten_bullets
      ∧ pyJoin ", " (pyGet [("assessment", Json.str "ok")] "job_titles" (Json.arr [])) =
          .ok job_titles
      ∧ pyIter (pyGet [("assessment", Json.str "ok")] "freelance_ideas" (Json.arr [])) =
          .ok freelance_ideas
      ∧ pyJoin ", " (pyGet [("assessment", Json.str "ok")] "keywords" (Json.arr [])) =
          .ok keywords
      ∧ analyzeHandler (.ok "\x7b\"assessment\": \"ok\"\x7d") = .ok ⟨none, some
          ⟨pyGet [("assessment", Json.str "ok")] "assessment" (Json.str ""), strengths,
            weaknesses, rewritten_bullets, job_titles, freelance_ideas, keywords,
            pyGet [("assessment", Json.str "ok")] "email_summary" (Json.str ""),
            if pyTruthy (pyGet [("assessment", Json.str "ok")] "bullet_resume" (Json.str ""))
              then some (pyGet [("assessment", Json.str "ok")] "bullet_resume" (Json.str ""))
              else none,
            if pyTruthy (pyGet [("assessment", Json.str "ok")] "rewritten_resume"
                (Json.str ""))
              then some (pyGet [("assessment", Json.str "ok")] "rewritten_resume"
                (Json.str ""))
              else none⟩⟩ :=
  (analyze_object_decode_lenient "\x7b\"assessment\": \"ok\"\x7d"
      [("assessment", Json.str "ok")] (by rfl)).2
    (by simp) rfl rfl rfl rfl rfl rfl

/-- C3 counterexample: a rawText that parses as JSON but not as an object
(a non-empty list) makes the Analyze handler raise an uncaught
`AttributeError` at `result.get`, escaping the handler instead of being
converted to a user-visible message. -/
theorem analyze_nonobject_json_escapes :
    analyzeHandler (.ok "[1]") =
      .error (.attributeError "'list' object has no attribute 'get'") := rfl

/-- C3 (amended): generation-call failures and parse failures are
converted to user-visible messages and never escape (likewise the
free-text actions, which always yield either their artifact or a message,
and the chat action, which stores an inline error reply); but a rawText
parsing to a truthy non-object JSON value escapes the Analyze handler as
an uncaught exception. -/
theorem orchestrator_error_conversion :
    (∀ e, analyzeHandler (.error e) = .ok ⟨some ("OpenAI API call failed: " ++ e), none⟩)
    ∧ (∀ raw e, json_loads raw = .error e →
        analyzeHandler (.ok raw) = .ok ⟨some ("OpenAI API call failed: " ++ e), none⟩)
    ∧ (∀ o, (freeTextHandler o).rendered.isSome = true ∨
        (freeTextHandler o).errorMsg.isSome = true)
    ∧ (∀ e, chatReply (.error e) = "Oops, something went wrong: " ++ e)
    ∧ isOkE (analyzeHandler (.ok "[1]")) = false := by
  refine ⟨analyzeHandler_apiError, analyzeHandler_parseError, ?_, fun e => rfl, rfl⟩
  intro o
  cases o with
  | ok r => exact Or.inl rfl
  | error e => exact Or.inr rfl

/-- C3 witness: a concrete parse failure is converted, not raised. -/
theorem orchestrator_error_conversion_witness :
    analyzeHandler (.ok "oops") =
      .ok ⟨some ("OpenAI API call failed: " ++
        "Expecting value: line 1 column 1 (char 0)"), none⟩ :=
  orchestrator_error_conversion.2.1 "oops"
    "Expecting value: line 1 column 1 (char 0)" (by rfl)
